import Mathlib

/-!
Verification of the voice-session controller of the AI English Tutor app.

This file is a shallow embedding of `src/App.tsx` (and `src/types.ts`):

* JSON field handling of the remote response (`rawFluency`, `mkFeedback`,
  lines 127-139 of App.tsx), including JavaScript truthiness for the
  `a || b` field-defaulting idiom;
* the submission flow `sendAudio` (lines 101-170), modelled as a function of
  the fetch outcome, since the network itself is an external boundary;
* transcript history append and the `slice(-20)` persistence bound
  (lines 47-51 and 143-161);
* the silence detector `monitorSilence` (lines 172-205) as a tick function on
  an explicit detector state, with wall-clock timestamps passed in, and a
  driver `runMonitor` that evaluates ticks only while a detection frame is
  scheduled;
* the recording teardown `stopRecording` (lines 207-217) and the
  `recorder.onstop` handler (lines 240-244), with explicit flags for the
  encoder, the sampler loop, the stream tracks, and the submission;
* the playback controller `playAudio` / `stopAllAudio` (lines 59-91).
  `playAudio` is split in two phases at its `await` points: `playPhase1` is
  the synchronous prefix (empty-payload guard, preemptive stop, context
  creation, base64 decode and zero-byte guard) and `playPhase2` is the
  continuation that runs after the asynchronous `decodeAudioData` resolves
  (start the source, record the handle).  `playAudio` composes the phases,
  which is the behaviour of a single un-interleaved call; `quickSuccession`
  is the schedule in which a second call's synchronous prefix runs while the
  first call is still awaiting its decode, which is what happens when
  `playAudio` is invoked twice in quick succession on the event loop.

Machine integers do not matter here (no overflow is reachable); timestamps
are `Int` milliseconds and loudness averages are `ℚ` (the byte-array average
computed by `monitorSilence` is fractional).  The base64 decoder lives in
`src/utils/audioUtils.ts`, which is not part of the given sources, so the
playback functions take the decoder as an explicit `String → List Nat`
argument and claims about it quantify over the decoder.
-/

/-- A JSON-ish runtime value of a response field.  `Option JVal` stands for a
field that may be absent (absent = `none` = JavaScript `undefined`). -/
inductive JVal where
  | num (n : Int)
  | str (s : String)
  | boolVal (b : Bool)
  | null
deriving DecidableEq

/-- JavaScript truthiness of a defined value (0, "", false and null are
falsy). -/
def truthy : JVal → Bool
  | JVal.num n => n != 0
  | JVal.str s => s != ""
  | JVal.boolVal b => b
  | JVal.null => false

/-- JavaScript `a || b` on possibly-undefined values: `a` if `a` is defined
and truthy, otherwise `b`. -/
def jsOr (a b : Option JVal) : Option JVal :=
  match a with
  | some v => if truthy v then some v else b
  | none => b

/-- The fields of the remote response object consumed by `sendAudio`
(after the array / `.json` wrapper unwrapping of lines 119-125). -/
structure ResponseData where
  Fluency : Option JVal
  fluency_score : Option JVal
  fluency : Option JVal
  corrected_sentence : Option JVal
  mistake_explanation : Option JVal
  confidence : Option JVal
  sentiment : Option JVal
  feedback : Option JVal
  audio_base64 : Option JVal
  user_transcript : Option JVal
deriving DecidableEq

/-- Line 128 of App.tsx:
`data.Fluency !== undefined ? data.Fluency : (data.fluency_score || data.fluency)`. -/
def rawFluency (d : ResponseData) : Option JVal :=
  match d.Fluency with
  | some v => some v
  | none => jsOr d.fluency_score d.fluency

/-- Line 137 of App.tsx: `typeof rawFluency === 'number' ? rawFluency : 75`. -/
def resolvedFluency (d : ResponseData) : Int :=
  match rawFluency d with
  | some (JVal.num n) => n
  | _ => 75

/-- The `data.field || "default"` idiom used for the string fields of the
feedback record (lines 131-138). -/
def jsOrStr (o : Option JVal) (dflt : String) : JVal :=
  match o with
  | some v => if truthy v then v else JVal.str dflt
  | none => JVal.str dflt

/-- The normalized feedback record (`FeedbackData` of src/types.ts), holding
the runtime values the mapping of lines 130-139 actually produces. -/
structure FeedbackData where
  corrected_sentence : JVal
  mistake_explanation : JVal
  confidence : JVal
  sentiment : JVal
  feedback : JVal
  audio_base64 : Option JVal
  fluency_score : Int
  user_transcript : JVal
deriving DecidableEq

/-- Lines 130-139 of App.tsx: build the feedback record, defaulting each
field independently. -/
def mkFeedback (d : ResponseData) : FeedbackData :=
  { corrected_sentence := jsOrStr d.corrected_sentence "Great job!"
    mistake_explanation := jsOrStr d.mistake_explanation "Your sentence was clear and correct."
    confidence := jsOrStr d.confidence "confident"
    sentiment := jsOrStr d.sentiment "neutral"
    feedback := jsOrStr d.feedback "Keep up the great work!"
    audio_base64 := d.audio_base64
    fluency_score := resolvedFluency d
    user_transcript := jsOrStr d.user_transcript "Transcript unavailable" }

/-- Speaker tag of a transcript entry (`type` in src/types.ts). -/
inductive Speaker where
  | user
  | tutor
deriving DecidableEq

/-- `TranscriptionItem` of src/types.ts. -/
structure TranscriptionItem where
  id : String
  type_ : Speaker
  text : JVal
  timestamp : Int
  audio_url : Option JVal
  isBase64 : Bool
deriving DecidableEq

/-- The screens of the app. -/
inductive Screen where
  | LANDING
  | CONVERSATION
  | ANALYSIS
deriving DecidableEq

/-- The React state touched by `sendAudio`. -/
structure AppState where
  screen : Screen
  isRecording : Bool
  isProcessing : Bool
  lastFeedback : Option FeedbackData
  history : List TranscriptionItem
  errorMsg : Option String
deriving DecidableEq

/-- Outcome of the fetch to the analysis webhook: a parsed, unwrapped
response object, a non-2xx response, or a network error. -/
inductive FetchOutcome where
  | ok (d : ResponseData)
  | httpError
  | networkError
deriving DecidableEq

/-- Lines 143-150 of App.tsx: the user transcript entry. -/
def mkUserItem (now : Int) (userAudioBase64 : String) (fb : FeedbackData) : TranscriptionItem :=
  { id := "u-" ++ toString now
    type_ := Speaker.user
    text := fb.user_transcript
    timestamp := now
    audio_url := some (JVal.str userAudioBase64)
    isBase64 := true }

/-- Lines 152-159 of App.tsx: the tutor transcript entry. -/
def mkTutorItem (now : Int) (fb : FeedbackData) : TranscriptionItem :=
  { id := "t-" ++ toString now
    type_ := Speaker.tutor
    text := fb.corrected_sentence
    timestamp := now
    audio_url := fb.audio_base64
    isBase64 := true }

/-- Lines 101-170 of App.tsx, as a function of the fetch outcome.  `now` is
`Date.now()` and `userAudioBase64` the data-URL of the recorded blob.  The
`try` body up to the `fetch` performs no state change besides
`setIsProcessing(true)` / `setError(null)`; a thrown error (non-ok response,
network failure) jumps to the `catch`, and the `finally` always clears the
processing and recording flags. -/
def sendAudio (now : Int) (userAudioBase64 : String) (outcome : FetchOutcome)
    (s : AppState) : AppState :=
  let s1 : AppState := { s with isProcessing := true, errorMsg := none }
  let s2 : AppState :=
    match outcome with
    | FetchOutcome.ok d =>
        let fb := mkFeedback d
        { s1 with
          lastFeedback := some fb
          history := s1.history ++ [mkUserItem now userAudioBase64 fb, mkTutorItem now fb]
          screen := Screen.ANALYSIS }
    | FetchOutcome.httpError =>
        { s1 with errorMsg := some "Network error. Could not connect to the tutor." }
    | FetchOutcome.networkError =>
        { s1 with errorMsg := some "Network error. Could not connect to the tutor." }
  { s2 with isProcessing := false, isRecording := false }

/-- Lines 47-51 of App.tsx: what the persistence effect writes for a
non-empty history, `history.slice(-20)` — the at most 20 most recent
entries. -/
def persistSlice (h : List TranscriptionItem) : List TranscriptionItem :=
  h.drop (h.length - 20)

/-- Line 10 of App.tsx. -/
def SILENCE_THRESHOLD : ℚ := 15

/-- Line 11 of App.tsx (milliseconds). -/
def SILENCE_DURATION : Int := 1800

/-- Line 12 of App.tsx (milliseconds). -/
def INITIAL_TIMEOUT : Int := 4000

/-- Lines 175-180 of App.tsx: the loudness sample is the arithmetic mean of
the frequency bins.  (For an empty bin list JavaScript produces `NaN`, which
compares false against the threshold, exactly as `ℚ` division by zero
produces `0 ≤ SILENCE_THRESHOLD` here: either way the tick counts as
silence.) -/
def averageVolume (bins : List Nat) : ℚ :=
  (bins.sum : ℚ) / (bins.length : ℚ)

/-- The silence-detector portion of the refs: `speechDetectedRef` and
`silenceStartRef` (lines 31-32 of App.tsx). -/
structure DetectorState where
  speechDetected : Bool
  silenceStart : Option Int
deriving DecidableEq

/-- The verdict a `monitorSilence` tick acts on: schedule the next frame,
stop for submission, or abandon with the no-voice notice. -/
inductive Verdict where
  | proceed
  | autoSubmit
  | abandonNoSpeech
deriving DecidableEq

/-- A verdict is terminal when the tick returns without scheduling another
animation frame. -/
def Verdict.isTerminal : Verdict → Bool
  | Verdict.proceed => false
  | Verdict.autoSubmit => true
  | Verdict.abandonNoSpeech => true

/-- Lines 182-201 of App.tsx: one evaluation of the detector on the tick's
average volume, at wall-clock time `now` (`Date.now()`). -/
def detectorTick (now : Int) (avg : ℚ) (d : DetectorState) : DetectorState × Verdict :=
  if SILENCE_THRESHOLD < avg then
    ({ speechDetected := true, silenceStart := none }, Verdict.proceed)
  else
    match d.silenceStart with
    | none => ({ d with silenceStart := some now }, Verdict.proceed)
    | some t0 =>
        let silentTime := now - t0
        if d.speechDetected = true ∧ SILENCE_DURATION < silentTime then
          (d, Verdict.autoSubmit)
        else if d.speechDetected = false ∧ INITIAL_TIMEOUT < silentTime then
          (d, Verdict.abandonNoSpeech)
        else
          (d, Verdict.proceed)

/-- The detector alone, run over a timestamped trace of loudness averages,
stopping at the first terminal verdict (the code returns without scheduling
a further frame there). -/
def runDetector (d : DetectorState) : List (Int × ℚ) → DetectorState × Option Verdict
  | [] => (d, none)
  | (t, a) :: rest =>
      let r := detectorTick t a d
      if r.2.isTerminal then (r.1, some r.2) else runDetector r.1 rest

/-- The state of one recording session: the detector refs, whether a
detection frame is scheduled (`detectionFrameRef` plus the recursive
`requestAnimationFrame`), whether the `MediaRecorder` is running, whether
`recorder.onstop` is still attached, whether the stream's tracks have been
stopped, the number of captured chunks (`audioChunksRef`), whether the
payload was handed to `sendAudio`, the React `isRecording` flag, the error
banner, and the transcript history. -/
structure SessionState where
  det : DetectorState
  samplerActive : Bool
  encoderActive : Bool
  onstopAttached : Bool
  tracksReleased : Bool
  chunks : Nat
  submitted : Bool
  isRecording : Bool
  errorMsg : Option String
  history : List TranscriptionItem
deriving DecidableEq

/-- Lines 240-244 of App.tsx, the `recorder.onstop` handler: assemble the
blob, submit it when at least one chunk was captured, and stop the stream's
tracks. -/
def handleOnstop (s : SessionState) : SessionState :=
  if 0 < s.chunks then { s with submitted := true, tracksReleased := true }
  else { s with tracksReleased := true }

/-- `mediaRecorderRef.current?.stop()`: the encoder stops; the `onstop`
handler fires only if it is still attached. -/
def recorderStop (s : SessionState) : SessionState :=
  let s1 := { s with encoderActive := false }
  if s1.onstopAttached then handleOnstop s1 else s1

/-- Lines 207-217 of App.tsx.  `cancel = true` is the abandon path: it sets
`mediaRecorderRef.current.onstop = null` before stopping the recorder. -/
def stopRecording (cancel : Bool) (s : SessionState) : SessionState :=
  let s1 := { s with samplerActive := false, isRecording := false }
  if cancel then recorderStop { s1 with onstopAttached := false }
  else recorderStop s1

/-- Lines 172-205 of App.tsx: one `monitorSilence` tick.  On `proceed` the
next animation frame is requested; on `autoSubmit` the code calls
`stopRecording()` and returns; on `abandonNoSpeech` it calls
`stopRecording(true)`, sets the no-voice notice, and returns. -/
def monitorSilence (now : Int) (avg : ℚ) (s : SessionState) : SessionState :=
  let r := detectorTick now avg s.det
  match r.2 with
  | Verdict.proceed => { s with det := r.1, samplerActive := true }
  | Verdict.autoSubmit => stopRecording false { s with det := r.1 }
  | Verdict.abandonNoSpeech =>
      { stopRecording true { s with det := r.1 } with
        errorMsg := some "No voice detected. Please try again." }

/-- The animation-frame driver: a tick is evaluated only while a detection
frame is scheduled. -/
def runMonitor (s : SessionState) : List (Int × ℚ) → SessionState
  | [] => s
  | (t, a) :: rest =>
      if s.samplerActive then runMonitor (monitorSilence t a s) rest else s

/-- The playback side: whether the shared `AudioContext` exists, the handle
recorded in `currentSourceRef`, the source nodes currently started and not
stopped (identified by creation index), and the next source index. -/
structure PlaybackState where
  ctxCreated : Bool
  current : Option Nat
  playing : List Nat
  nextId : Nat
deriving DecidableEq

/-- Lines 59-66 of App.tsx: stop and discard the current handle, if any. -/
def stopAllAudio (p : PlaybackState) : PlaybackState :=
  match p.current with
  | some src => { p with playing := p.playing.erase src, current := none }
  | none => p

/-- The synchronous prefix of `playAudio` (lines 68-80): return on an empty
payload string, otherwise stop any current handle, create the shared
context, decode, and return on zero decoded bytes.  The boolean says whether
the call proceeds to the post-decode continuation. -/
def playPhase1 (decode : String → List Nat) (payload : String) (p : PlaybackState) :
    PlaybackState × Bool :=
  if payload = "" then (p, false)
  else
    let p1 := { stopAllAudio p with ctxCreated := true }
    if (decode payload).length = 0 then (p1, false) else (p1, true)

/-- The continuation of `playAudio` after `decodeAudioData` resolves
(lines 82-87): create a source, start it, and record it as the current
handle. -/
def playPhase2 (p : PlaybackState) : PlaybackState :=
  { p with playing := p.playing ++ [p.nextId], current := some p.nextId, nextId := p.nextId + 1 }

/-- A single `playAudio` call that runs to completion with no interleaved
call: phase 1, then phase 2 when the guards passed. -/
def playAudio (decode : String → List Nat) (payload : String) (p : PlaybackState) :
    PlaybackState :=
  let r := playPhase1 decode payload p
  if r.2 then playPhase2 r.1 else r.1

/-- Two `playAudio` calls in quick succession on the event loop: each call's
synchronous prefix runs on its originating task before either asynchronous
decode resolves, then the two continuations run. -/
def quickSuccession (decode : String → List Nat) (payA payB : String) (p : PlaybackState) :
    PlaybackState :=
  let r1 := playPhase1 decode payA p
  let r2 := playPhase1 decode payB r1.1
  let p3 := if r1.2 then playPhase2 r2.1 else r2.1
  if r2.2 then playPhase2 p3 else p3

/-- The playback invariant the spec asserts: the only started-and-not-stopped
source is the recorded current handle. -/
def PlaybackWF (p : PlaybackState) : Prop :=
  p.playing = (match p.current with | some c => [c] | none => [])

/-- Modelled from the spec: the claim's fluency resolution rule, in which the
first PRESENT field of `Fluency`, `fluency_score`, `fluency` wins and a
non-numeric or missing value defaults to 75.  This definition follows the
claim's words and exists only to be compared with `resolvedFluency`, which
is translated from the code. -/
def numOrDefault : JVal → Int
  | JVal.num n => n
  | _ => 75

/-- Modelled from the spec: first-present-wins resolution (see
`numOrDefault`). -/
def claimFirstPresentFluency (d : ResponseData) : Int :=
  match d.Fluency with
  | some v => numOrDefault v
  | none =>
      match d.fluency_score with
      | some v => numOrDefault v
      | none =>
          match d.fluency with
          | some v => numOrDefault v
          | none => 75

/-- Stopping on the abandon path detaches the `onstop` handler first, so the
handler never fires: only the sampler, the recording flag, the handler and
the encoder change. -/
theorem stopRecording_cancel_eq (x : SessionState) :
    stopRecording true x =
      { x with samplerActive := false, isRecording := false,
               onstopAttached := false, encoderActive := false } := by
  simp [stopRecording, recorderStop]

/-- Stopping on the manual / auto-submit path with the handler attached fires
the handler: tracks are released, and the payload is submitted exactly when a
chunk was captured. -/
theorem stopRecording_manual_eq (x : SessionState) (hatt : x.onstopAttached = true) :
    stopRecording false x =
      if 0 < x.chunks then
        { x with samplerActive := false, isRecording := false, encoderActive := false,
                 submitted := true, tracksReleased := true }
      else
        { x with samplerActive := false, isRecording := false, encoderActive := false,
                 tracksReleased := true } := by
  simp only [stopRecording, recorderStop, handleOnstop, hatt, Bool.false_eq_true, if_false,
    if_true]

/-- Every `stopRecording` cancels the detection frame. -/
theorem stopRecording_samplerActive (c : Bool) (s : SessionState) :
    (stopRecording c s).samplerActive = false := by
  cases c <;> simp only [stopRecording, recorderStop, handleOnstop] <;> split_ifs <;> rfl

/-- Every `stopRecording` clears the recording flag. -/
theorem stopRecording_isRecording (c : Bool) (s : SessionState) :
    (stopRecording c s).isRecording = false := by
  cases c <;> simp only [stopRecording, recorderStop, handleOnstop] <;> split_ifs <;> rfl

/-- Every `stopRecording` stops the encoder. -/
theorem stopRecording_encoderActive (c : Bool) (s : SessionState) :
    (stopRecording c s).encoderActive = false := by
  cases c <;> simp only [stopRecording, recorderStop, handleOnstop] <;> split_ifs <;> rfl

/-- `stopRecording` never touches the transcript history. -/
theorem stopRecording_history (c : Bool) (s : SessionState) :
    (stopRecording c s).history = s.history := by
  cases c <;> simp only [stopRecording, recorderStop, handleOnstop] <;> split_ifs <;> rfl

/-- Once no detection frame is scheduled, no further tick is evaluated: the
driver leaves the state untouched, whatever samples arrive. -/
theorem runMonitor_inactive (s : SessionState) (h : s.samplerActive = false)
    (tr : List (Int × ℚ)) : runMonitor s tr = s := by
  cases tr with
  | nil => rfl
  | cons hd rest =>
      obtain ⟨t, a⟩ := hd
      simp [runMonitor, h]

/-- C1: every append adds exactly the user entry then the tutor entry to the
history, and the persisted copy retains only the most recent 20 entries; in
particular appending to a 20-entry history persists the last 20, dropping the
two oldest. -/
theorem sendAudio_appends_pair_and_persist_keeps_latest (now : Int) (ua : String)
    (d : ResponseData) (s : AppState) :
    (sendAudio now ua (FetchOutcome.ok d) s).history
        = s.history ++ [mkUserItem now ua (mkFeedback d), mkTutorItem now (mkFeedback d)] ∧
    (sendAudio now ua (FetchOutcome.ok d) s).history.length = s.history.length + 2 ∧
    (mkUserItem now ua (mkFeedback d)).type_ = Speaker.user ∧
    (mkTutorItem now (mkFeedback d)).type_ = Speaker.tutor ∧
    (persistSlice (sendAudio now ua (FetchOutcome.ok d) s).history).length
        = min (sendAudio now ua (FetchOutcome.ok d) s).history.length 20 ∧
    persistSlice (sendAudio now ua (FetchOutcome.ok d) s).history
        <:+ (sendAudio now ua (FetchOutcome.ok d) s).history ∧
    (s.history.length = 20 →
      persistSlice (sendAudio now ua (FetchOutcome.ok d) s).history
        = s.history.drop 2
            ++ [mkUserItem now ua (mkFeedback d), mkTutorItem now (mkFeedback d)]) := by
  have hh : (sendAudio now ua (FetchOutcome.ok d) s).history
      = s.history ++ [mkUserItem now ua (mkFeedback d), mkTutorItem now (mkFeedback d)] := rfl
  refine ⟨hh, ?_, rfl, rfl, ?_, ?_, ?_⟩
  · rw [hh]; simp
  · simp only [persistSlice, List.length_drop]; omega
  · exact List.drop_suffix _ _
  · intro h20
    rw [hh]
    have hlen : (s.history
        ++ [mkUserItem now ua (mkFeedback d), mkTutorItem now (mkFeedback d)]).length - 20
        = 2 := by
      simp [h20]
    simp only [persistSlice, hlen]
    rw [List.drop_append_of_le_length (by omega)]

/-- Shared blank transcript entry for concrete instances. -/
def itemBlank : TranscriptionItem :=
  { id := "x", type_ := Speaker.user, text := JVal.null, timestamp := 0,
    audio_url := none, isBase64 := false }

/-- A history already at the retention cap of 20 entries. -/
def history20 : List TranscriptionItem := List.replicate 20 itemBlank

/-- App state holding a 20-entry history. -/
def appState20 : AppState :=
  { screen := Screen.CONVERSATION, isRecording := true, isProcessing := true,
    lastFeedback := none, history := history20, errorMsg := none }

/-- A response with every field absent. -/
def dBlank : ResponseData :=
  { Fluency := none, fluency_score := none, fluency := none, corrected_sentence := none,
    mistake_explanation := none, confidence := none, sentiment := none, feedback := none,
    audio_base64 := none, user_transcript := none }

/-- Witness for C1 at a history already holding 20 entries. -/
theorem sendAudio_appends_pair_witness :
    appState20.history.length = 20 ∧
    persistSlice (sendAudio 5 "ua" (FetchOutcome.ok dBlank) appState20).history
      = appState20.history.drop 2
          ++ [mkUserItem 5 "ua" (mkFeedback dBlank), mkTutorItem 5 (mkFeedback dBlank)] := by
  have h20 : appState20.history.length = 20 := by simp [appState20, history20]
  exact ⟨h20,
    (sendAudio_appends_pair_and_persist_keeps_latest 5 "ua" dBlank appState20).2.2.2.2.2.2 h20⟩

/-- Response carrying a present but falsy `fluency_score` of 0 and a
`fluency` of 50. -/
def dC2 : ResponseData :=
  { dBlank with fluency_score := some (JVal.num 0), fluency := some (JVal.num 50) }

/-- C2 counterexample: with `Fluency` absent, `fluency_score` present with
value 0 and `fluency` present with value 50, first-present-wins resolution
would give 0, but the code's `data.fluency_score || data.fluency` skips the
falsy 0 and resolves 50. -/
theorem fluency_first_present_refuted :
    dC2.Fluency = none ∧ dC2.fluency_score = some (JVal.num 0) ∧
    dC2.fluency = some (JVal.num 50) ∧
    claimFirstPresentFluency dC2 = 0 ∧
    resolvedFluency dC2 = 50 ∧
    resolvedFluency dC2 ≠ claimFirstPresentFluency dC2 := by decide

/-- C2 amended: `Fluency` wins by presence (numeric value taken, non-numeric
defaults to 75); with `Fluency` absent, `fluency_score` wins only when
truthy (any nonzero number), a zero or absent `fluency_score` falls through
to `fluency`; with nothing selected the default 75 is used; and a response
missing `fluency_score` but carrying `Fluency: 81` resolves to 81. -/
theorem resolvedFluency_resolution_rule (d : ResponseData) :
    (∀ n : Int, d.Fluency = some (JVal.num n) → resolvedFluency d = n) ∧
    (∀ v : JVal, d.Fluency = some v → (∀ n : Int, v ≠ JVal.num n) →
        resolvedFluency d = 75) ∧
    (∀ n : Int, d.Fluency = none → d.fluency_score = some (JVal.num n) → n ≠ 0 →
        resolvedFluency d = n) ∧
    (∀ n : Int, d.Fluency = none → d.fluency_score = some (JVal.num 0) →
        d.fluency = some (JVal.num n) → resolvedFluency d = n) ∧
    (∀ n : Int, d.Fluency = none → d.fluency_score = none →
        d.fluency = some (JVal.num n) → resolvedFluency d = n) ∧
    (d.Fluency = none → d.fluency_score = none → d.fluency = none →
        resolvedFluency d = 75) ∧
    (d.Fluency = some (JVal.num 81) → d.fluency_score = none →
        resolvedFluency d = 81) := by
  refine ⟨?_, ?_, ?_, ?_, ?_, ?_, ?_⟩
  · intro n h
    simp [resolvedFluency, rawFluency, h]
  · intro v h hnn
    cases v with
    | num n => exact absurd rfl (hnn n)
    | str s => simp [resolvedFluency, rawFluency, h]
    | boolVal b => simp [resolvedFluency, rawFluency, h]
    | null => simp [resolvedFluency, rawFluency, h]
  · intro n hF hfs hn
    simp [resolvedFluency, rawFluency, jsOr, hF, hfs, truthy, hn]
  · intro n hF hfs hfl
    simp [resolvedFluency, rawFluency, jsOr, hF, hfs, hfl, truthy]
  · intro n hF hfs hfl
    simp [resolvedFluency, rawFluency, jsOr, hF, hfs, hfl]
  · intro hF hfs hfl
    simp [resolvedFluency, rawFluency, jsOr, hF, hfs, hfl]
  · intro hF _
    simp [resolvedFluency, rawFluency, hF]

/-- Witness for the amended C2 rule at concrete responses. -/
theorem resolvedFluency_resolution_rule_witness :
    resolvedFluency { dBlank with Fluency := some (JVal.num 81) } = 81 ∧
    resolvedFluency dBlank = 75 :=
  ⟨(resolvedFluency_resolution_rule { dBlank with Fluency := some (JVal.num 81) }).1 81 rfl,
   (resolvedFluency_resolution_rule dBlank).2.2.2.2.2.1 rfl rfl rfl⟩

/-- C9: on transport failure (non-2xx or network error) the notice is
surfaced and history, feedback and screen are untouched; and on every
outcome the processing and recording flags end up cleared. -/
theorem sendAudio_failure_atomic (now : Int) (ua : String) (o : FetchOutcome) (s : AppState) :
    ((o = FetchOutcome.httpError ∨ o = FetchOutcome.networkError) →
      (sendAudio now ua o s).errorMsg
          = some "Network error. Could not connect to the tutor." ∧
      (sendAudio now ua o s).history = s.history ∧
      (sendAudio now ua o s).lastFeedback = s.lastFeedback ∧
      (sendAudio now ua o s).screen = s.screen) ∧
    (sendAudio now ua o s).isProcessing = false ∧
    (sendAudio now ua o s).isRecording = false := by
  refine ⟨?_, ?_, ?_⟩
  · rintro (rfl | rfl) <;> exact ⟨rfl, rfl, rfl, rfl⟩
  · cases o <;> rfl
  · cases o <;> rfl

/-- An app state mid-submission, used to instantiate C9. -/
def sApp1 : AppState :=
  { screen := Screen.CONVERSATION, isRecording := true, isProcessing := true,
    lastFeedback := none, history := [itemBlank], errorMsg := none }

/-- Witness for C9 at a concrete non-2xx outcome. -/
theorem sendAudio_failure_atomic_witness :
    (sendAudio 0 "ua" FetchOutcome.httpError sApp1).errorMsg
        = some "Network error. Could not connect to the tutor." ∧
    (sendAudio 0 "ua" FetchOutcome.httpError sApp1).history = sApp1.history ∧
    (sendAudio 0 "ua" FetchOutcome.httpError sApp1).lastFeedback = sApp1.lastFeedback ∧
    (sendAudio 0 "ua" FetchOutcome.httpError sApp1).isProcessing = false ∧
    (sendAudio 0 "ua" FetchOutcome.httpError sApp1).isRecording = false := by
  obtain ⟨h1, h2, h3⟩ := sendAudio_failure_atomic 0 "ua" FetchOutcome.httpError sApp1
  obtain ⟨e, hh, hf, _⟩ := h1 (Or.inl rfl)
  exact ⟨e, hh, hf, h2, h3⟩

/-- C10: a manual stop (onstop attached) with zero captured chunks submits
nothing, changes no history and returns the session to idle; the payload is
submitted exactly when at least one chunk was captured. -/
theorem manual_stop_empty_capture_abandons (s : SessionState)
    (hatt : s.onstopAttached = true) (hsub : s.submitted = false) :
    (s.chunks = 0 →
      (stopRecording false s).submitted = false ∧
      (stopRecording false s).history = s.history ∧
      (stopRecording false s).isRecording = false ∧
      (stopRecording false s).samplerActive = false ∧
      (stopRecording false s).encoderActive = false) ∧
    ((stopRecording false s).submitted = true ↔ 0 < s.chunks) := by
  rw [stopRecording_manual_eq s hatt]
  by_cases hc : 0 < s.chunks
  · rw [if_pos hc]
    exact ⟨fun h0 => absurd hc (by omega), by simpa using hc⟩
  · rw [if_neg hc]
    refine ⟨fun _ => ⟨hsub, rfl, rfl, rfl, rfl⟩, ?_⟩
    show s.submitted = true ↔ 0 < s.chunks
    rw [hsub]
    simp only [Bool.false_eq_true, false_iff]
    exact hc

/-- A capturing session that was stopped manually before any chunk arrived. -/
def sEmptyCapture : SessionState :=
  { det := { speechDetected := true, silenceStart := none }, samplerActive := true,
    encoderActive := true, onstopAttached := true, tracksReleased := false, chunks := 0,
    submitted := false, isRecording := true, errorMsg := none, history := [itemBlank] }

/-- Witness for C10 at a concrete empty capture. -/
theorem manual_stop_empty_capture_abandons_witness :
    (stopRecording false sEmptyCapture).submitted = false ∧
    (stopRecording false sEmptyCapture).history = sEmptyCapture.history ∧
    (stopRecording false sEmptyCapture).isRecording = false := by
  obtain ⟨h1, _⟩ := manual_stop_empty_capture_abandons sEmptyCapture rfl rfl
  obtain ⟨a, b, c, _, _⟩ := h1 rfl
  exact ⟨a, b, c⟩

/-- A capturing session four seconds into initial silence, holding one chunk
and live tracks. -/
def sC3 : SessionState :=
  { det := { speechDetected := false, silenceStart := some 0 }, samplerActive := true,
    encoderActive := true, onstopAttached := true, tracksReleased := false, chunks := 1,
    submitted := false, isRecording := true, errorMsg := none, history := [] }

/-- C3: on the abandon-no-speech exit from capturing, the code detaches the
onstop handler before stopping, so the stream's tracks are never released on
that path (the sampler and the encoder are stopped); on the manual /
auto-submit path the handler fires and releases them.  Evaluation of the
code at the failing input. -/
theorem abandon_path_skips_track_release :
    (monitorSilence 4001 0 sC3).tracksReleased = false ∧
    (monitorSilence 4001 0 sC3).encoderActive = false ∧
    (monitorSilence 4001 0 sC3).samplerActive = false ∧
    (monitorSilence 4001 0 sC3).onstopAttached = false ∧
    (monitorSilence 4001 0 sC3).errorMsg = some "No voice detected. Please try again." ∧
    (stopRecording false sC3).tracksReleased = true ∧
    (stopRecording true sC3).tracksReleased = false := by decide

/-- A loud tick always marks speech as detected, clears the silence start and
proceeds. -/
theorem detectorTick_loud (t : Int) (a : ℚ) (d : DetectorState)
    (ha : SILENCE_THRESHOLD < a) :
    detectorTick t a d = ({ speechDetected := true, silenceStart := none }, Verdict.proceed) := by
  simp [detectorTick, ha]

/-- Over a trace of loud samples the detector never reaches a terminal
verdict. -/
theorem runDetector_loud_aux : ∀ (tr : List (Int × ℚ)) (d : DetectorState),
    (∀ p ∈ tr, SILENCE_THRESHOLD < p.2) → (runDetector d tr).2 = none := by
  intro tr
  induction tr with
  | nil => intro d _; rfl
  | cons hd rest ih =>
      intro d hloud
      obtain ⟨t, a⟩ := hd
      have ha : SILENCE_THRESHOLD < a := hloud (t, a) (List.mem_cons_self _ _)
      have hrest : ∀ p ∈ rest, SILENCE_THRESHOLD < p.2 :=
        fun p hp => hloud p (List.mem_cons_of_mem _ hp)
      simp only [runDetector, detectorTick_loud t a d ha, Verdict.isTerminal,
        Bool.false_eq_true, if_false]
      exact ih _ hrest

/-- C6: for every sequence of loudness samples staying above the threshold,
the detector never emits a terminal verdict, and each such tick marks
`speechDetected`, clears `silenceStart` and proceeds. -/
theorem no_terminal_verdict_when_loud (d : DetectorState) (tr : List (Int × ℚ))
    (hloud : ∀ p ∈ tr, SILENCE_THRESHOLD < p.2) :
    (runDetector d tr).2 = none ∧
    ∀ (t : Int) (a : ℚ) (d' : DetectorState), SILENCE_THRESHOLD < a →
      detectorTick t a d'
        = ({ speechDetected := true, silenceStart := none }, Verdict.proceed) :=
  ⟨runDetector_loud_aux tr d hloud, fun t a d' ha => detectorTick_loud t a d' ha⟩

/-- Witness for C6 on a concrete loud two-tick trace. -/
theorem no_terminal_verdict_when_loud_witness :
    (runDetector { speechDetected := false, silenceStart := none } [(0, 100), (16, 200)]).2
        = none ∧
    detectorTick 0 100 { speechDetected := false, silenceStart := none }
        = ({ speechDetected := true, silenceStart := none }, Verdict.proceed) := by
  have h := no_terminal_verdict_when_loud { speechDetected := false, silenceStart := none }
    [(0, 100), (16, 200)] (by decide)
  exact ⟨h.1, h.2 0 100 _ (by decide)⟩

/-- C5: once speech has been detected and silence has persisted for more
than `SILENCE_DURATION`, the next tick emits the auto-submit verdict — the
detector state is returned unchanged and the tick is exactly
`stopRecording false` — the detection frame is cancelled, and no further
tick is ever evaluated for this session instance. -/
theorem autoSubmit_on_sustained_silence (s : SessionState) (t0 now : Int) (avg : ℚ)
    (hspeech : s.det.speechDetected = true)
    (hstart : s.det.silenceStart = some t0)
    (hsilent : avg ≤ SILENCE_THRESHOLD)
    (helapsed : SILENCE_DURATION < now - t0) :
    detectorTick now avg s.det = (s.det, Verdict.autoSubmit) ∧
    monitorSilence now avg s = stopRecording false s ∧
    (monitorSilence now avg s).samplerActive = false ∧
    ∀ tr : List (Int × ℚ),
      runMonitor (monitorSilence now avg s) tr = monitorSilence now avg s := by
  have hnl : ¬ SILENCE_THRESHOLD < avg := not_lt.mpr hsilent
  have htick : detectorTick now avg s.det = (s.det, Verdict.autoSubmit) := by
    simp [detectorTick, hnl, hstart, hspeech, helapsed]
  have hms : monitorSilence now avg s = stopRecording false s := by
    unfold monitorSilence
    rw [htick]
  have hsa : (monitorSilence now avg s).samplerActive = false := by
    rw [hms]; exact stopRecording_samplerActive false s
  exact ⟨htick, hms, hsa, fun tr => runMonitor_inactive _ hsa tr⟩

/-- A capturing session in which speech was heard and silence began at time
0, used to instantiate C5. -/
def sW5 : SessionState :=
  { det := { speechDetected := true, silenceStart := some 0 }, samplerActive := true,
    encoderActive := true, onstopAttached := true, tracksReleased := false, chunks := 3,
    submitted := false, isRecording := true, errorMsg := none, history := [] }

/-- Witness for C5 at a concrete tick 1801 ms into silence. -/
theorem autoSubmit_on_sustained_silence_witness :
    detectorTick 1801 0 sW5.det = (sW5.det, Verdict.autoSubmit) ∧
    monitorSilence 1801 0 sW5 = stopRecording false sW5 ∧
    (monitorSilence 1801 0 sW5).samplerActive = false ∧
    runMonitor (monitorSilence 1801 0 sW5) [(1817, 100), (1833, 100)]
        = monitorSilence 1801 0 sW5 := by
  have h := autoSubmit_on_sustained_silence sW5 0 1801 0 rfl rfl
    (by norm_num [SILENCE_THRESHOLD]) (by norm_num [SILENCE_DURATION])
  exact ⟨h.1, h.2.1, h.2.2.1, h.2.2.2 [(1817, 100), (1833, 100)]⟩

/-- While no speech has ever been heard and silence has been running since
`t0`, silent ticks leave the session untouched until the first tick more
than `INITIAL_TIMEOUT` past `t0`, which abandons the session: the sampler
and encoder stop, the onstop handler is detached and the no-voice notice is
set. -/
theorem runMonitor_initial_silence_aux : ∀ (tr : List (Int × ℚ)) (s : SessionState) (t0 : Int),
    s.det = { speechDetected := false, silenceStart := some t0 } →
    s.samplerActive = true →
    (∀ p ∈ tr, p.2 ≤ SILENCE_THRESHOLD) →
    (∃ p ∈ tr, INITIAL_TIMEOUT < p.1 - t0) →
    runMonitor s tr
      = { stopRecording true s with errorMsg := some "No voice detected. Please try again." } := by
  intro tr
  induction tr with
  | nil =>
      intro s t0 _ _ _ hex
      simp at hex
  | cons hd rest ih =>
      intro s t0 hdet hact hsil hex
      obtain ⟨t, a⟩ := hd
      have ha : a ≤ SILENCE_THRESHOLD := hsil (t, a) (List.mem_cons_self _ _)
      have hnl : ¬ SILENCE_THRESHOLD < a := not_lt.mpr ha
      by_cases hlong : INITIAL_TIMEOUT < t - t0
      · have htick : detectorTick t a s.det = (s.det, Verdict.abandonNoSpeech) := by
          simp [detectorTick, hnl, hdet, hlong]
        have hms : monitorSilence t a s
            = { stopRecording true s with
                errorMsg := some "No voice detected. Please try again." } := by
          simp only [monitorSilence, htick]
        have hstep : runMonitor s ((t, a) :: rest) = runMonitor (monitorSilence t a s) rest := by
          simp [runMonitor, hact]
        rw [hstep, hms]
        refine runMonitor_inactive _ ?_ rest
        exact stopRecording_samplerActive true s
      · have htick : detectorTick t a s.det = (s.det, Verdict.proceed) := by
          simp [detectorTick, hnl, hdet, hlong]
        have hms : monitorSilence t a s = s := by
          simp only [monitorSilence, htick]
          rw [← hact]
        have hstep : runMonitor s ((t, a) :: rest) = runMonitor s rest := by
          simp [runMonitor, hact, hms]
        rw [hstep]
        apply ih s t0 hdet hact (fun p hp => hsil p (List.mem_cons_of_mem _ hp))
        obtain ⟨p, hp, hplong⟩ := hex
        rcases List.mem_cons.mp hp with heq | hmem
        · subst heq
          exact absurd hplong hlong
        · exact ⟨p, hmem, hplong⟩

/-- C7: when silence holds from the very first tick and some later tick
falls more than `INITIAL_TIMEOUT` after it with no loud sample in between,
the run abandons: nothing is submitted, the onstop handler is detached (the
payload is discarded), the no-voice notice is surfaced, the history is
unchanged, and the sampler, encoder and recording flag are all stopped. -/
theorem abandon_no_speech_discards_capture (s : SessionState) (t0 : Int) (a0 : ℚ)
    (rest : List (Int × ℚ))
    (hdet : s.det = { speechDetected := false, silenceStart := none })
    (hact : s.samplerActive = true)
    (hsub : s.submitted = false)
    (ha0 : a0 ≤ SILENCE_THRESHOLD)
    (hrest : ∀ p ∈ rest, p.2 ≤ SILENCE_THRESHOLD)
    (hlong : ∃ p ∈ rest, INITIAL_TIMEOUT < p.1 - t0) :
    (runMonitor s ((t0, a0) :: rest)).submitted = false ∧
    (runMonitor s ((t0, a0) :: rest)).onstopAttached = false ∧
    (runMonitor s ((t0, a0) :: rest)).errorMsg
        = some "No voice detected. Please try again." ∧
    (runMonitor s ((t0, a0) :: rest)).history = s.history ∧
    (runMonitor s ((t0, a0) :: rest)).samplerActive = false ∧
    (runMonitor s ((t0, a0) :: rest)).encoderActive = false ∧
    (runMonitor s ((t0, a0) :: rest)).isRecording = false := by
  have hnl : ¬ SILENCE_THRESHOLD < a0 := not_lt.mpr ha0
  have htick : detectorTick t0 a0 s.det
      = ({ speechDetected := false, silenceStart := some t0 }, Verdict.proceed) := by
    simp [detectorTick, hnl, hdet]
  have hmEq : monitorSilence t0 a0 s
      = { s with det := { speechDetected := false, silenceStart := some t0 },
                 samplerActive := true } := by
    simp only [monitorSilence, htick]
  have hstep : runMonitor s ((t0, a0) :: rest)
      = runMonitor (monitorSilence t0 a0 s) rest := by
    simp [runMonitor, hact]
  have hfin : runMonitor (monitorSilence t0 a0 s) rest
      = { stopRecording true (monitorSilence t0 a0 s) with
          errorMsg := some "No voice detected. Please try again." } :=
    runMonitor_initial_silence_aux rest (monitorSilence t0 a0 s) t0 (by rw [hmEq])
      (by rw [hmEq]) hrest hlong
  rw [hstep, hfin, hmEq, stopRecording_cancel_eq]
  exact ⟨hsub, rfl, rfl, rfl, rfl, rfl, rfl⟩

/-- A freshly started capturing session with two background-noise chunks,
used to instantiate C7. -/
def sC7 : SessionState :=
  { det := { speechDetected := false, silenceStart := none }, samplerActive := true,
    encoderActive := true, onstopAttached := true, tracksReleased := false, chunks := 2,
    submitted := false, isRecording := true, errorMsg := none, history := [itemBlank] }

/-- Witness for C7 on a concrete all-silent trace whose second tick falls
4001 ms after the first. -/
theorem abandon_no_speech_discards_capture_witness :
    (runMonitor sC7 [(0, 0), (4001, 0)]).submitted = false ∧
    (runMonitor sC7 [(0, 0), (4001, 0)]).onstopAttached = false ∧
    (runMonitor sC7 [(0, 0), (4001, 0)]).errorMsg
        = some "No voice detected. Please try again." ∧
    (runMonitor sC7 [(0, 0), (4001, 0)]).history = sC7.history ∧
    (runMonitor sC7 [(0, 0), (4001, 0)]).isRecording = false := by
  have h := abandon_no_speech_discards_capture sC7 0 0 [(4001, 0)] rfl rfl rfl
    (by norm_num [SILENCE_THRESHOLD])
    (by
      intro p hp
      simp only [List.mem_singleton] at hp
      subst hp
      norm_num [SILENCE_THRESHOLD])
    ⟨(4001, 0), by simp, by norm_num [INITIAL_TIMEOUT]⟩
  exact ⟨h.1, h.2.1, h.2.2.1, h.2.2.2.1, h.2.2.2.2.2.2⟩

/-- Sanity: composing the two phases is the straight-line translation of
`playAudio` (lines 68-91): empty-payload guard, preemptive stop plus context
creation, zero-byte guard, then start-and-record. -/
theorem playAudio_straight_line (decode : String → List Nat) (payload : String)
    (p : PlaybackState) :
    playAudio decode payload p =
      if payload = "" then p
      else
        let p1 := { stopAllAudio p with ctxCreated := true }
        if (decode payload).length = 0 then p1
        else { p1 with playing := p1.playing ++ [p1.nextId], current := some p1.nextId,
                       nextId := p1.nextId + 1 } := by
  simp only [playAudio, playPhase1, playPhase2]
  by_cases hp : payload = ""
  · simp [hp]
  · by_cases hz : (decode payload).length = 0
    · simp [hp, hz]
    · simp [hp, hz]

/-- A decoder that yields no bytes, and a playback state with one in-flight
source, instantiating C8. -/
def decodeEmpty : String → List Nat := fun _ => []

/-- Playback state with source 0 in flight. -/
def pC8 : PlaybackState := { ctxCreated := true, current := some 0, playing := [0], nextId := 1 }

/-- C8 counterexample: a nonempty payload that decodes to zero bytes is not a
no-op — the in-flight handle has already been stopped and discarded by the
preemptive `stopAllAudio` that runs before the zero-byte check. -/
theorem zero_byte_play_not_noop :
    (decodeEmpty "AAAA").length = 0 ∧
    playAudio decodeEmpty "AAAA" pC8 ≠ pC8 ∧
    (playAudio decodeEmpty "AAAA" pC8).current = none ∧
    (playAudio decodeEmpty "AAAA" pC8).playing = [] := by decide

/-- C8 amended: a play whose payload decodes to zero bytes starts no new
playback (no source is started and the source counter is unchanged); when
the payload string is empty the call leaves the state entirely unchanged,
but when it is nonempty any in-flight handle has already been stopped and
discarded (and the shared context created) before the zero-byte check. -/
theorem zero_byte_play_starts_nothing (decode : String → List Nat) (payload : String)
    (p : PlaybackState) (hz : (decode payload).length = 0) :
    (payload = "" → playAudio decode payload p = p) ∧
    (payload ≠ "" → playAudio decode payload p = { stopAllAudio p with ctxCreated := true }) ∧
    (playAudio decode payload p).nextId = p.nextId ∧
    ∀ src, src ∈ (playAudio decode payload p).playing → src ∈ p.playing := by
  by_cases hp : payload = ""
  · refine ⟨fun _ => by simp [playAudio, playPhase1, hp], fun h => absurd hp h, ?_, ?_⟩
    · simp [playAudio, playPhase1, hp]
    · simp [playAudio, playPhase1, hp]
  · have heq : playAudio decode payload p = { stopAllAudio p with ctxCreated := true } := by
      simp [playAudio, playPhase1, hp, hz]
    refine ⟨fun h => absurd h hp, fun _ => heq, ?_, ?_⟩
    · rw [heq]
      show (stopAllAudio p).nextId = p.nextId
      unfold stopAllAudio
      cases p.current <;> rfl
    · intro src hsrc
      rw [heq] at hsrc
      have hsrc' : src ∈ (stopAllAudio p).playing := hsrc
      unfold stopAllAudio at hsrc'
      cases hcur : p.current with
      | none => rw [hcur] at hsrc'; exact hsrc'
      | some c =>
          rw [hcur] at hsrc'
          exact List.mem_of_mem_erase hsrc'

/-- Witness for the amended C8 at a concrete zero-byte decode. -/
theorem zero_byte_play_starts_nothing_witness :
    playAudio decodeEmpty "AAAA" pC8 = { stopAllAudio pC8 with ctxCreated := true } ∧
    (playAudio decodeEmpty "AAAA" pC8).nextId = pC8.nextId := by
  have h := zero_byte_play_starts_nothing decodeEmpty "AAAA" pC8 rfl
  exact ⟨h.2.1 (by decide), h.2.2.1⟩

/-- A decoder producing one byte for every payload, and an idle playback
state, instantiating C4. -/
def decodeOneByte : String → List Nat := fun _ => [0]

/-- An idle playback state: nothing playing, no context yet. -/
def pIdle : PlaybackState := { ctxCreated := false, current := none, playing := [], nextId := 0 }

/-- C4 counterexample: two `playAudio` calls in quick succession — the
second call's synchronous prefix runs while the first is still awaiting its
asynchronous decode — leave TWO sources running concurrently: the first
call's source starts after the second call's preemption check and is never
stopped.  Only the recorded handle points at the second source. -/
theorem quick_succession_two_sources :
    PlaybackWF pIdle ∧
    (quickSuccession decodeOneByte "A" "B" pIdle).playing = [0, 1] ∧
    (quickSuccession decodeOneByte "A" "B" pIdle).playing.length ≠ 1 ∧
    (quickSuccession decodeOneByte "A" "B" pIdle).current = some 1 := by
  refine ⟨rfl, by decide, by decide, by decide⟩

/-- C4 amended: each `playAudio` call stops and discards the handle current
at its start, and when the two calls run sequentially — the second starting
only after the first completed — exactly one audible source remains, the
second call's, and the one-handle invariant is preserved.  (Per
`quick_succession_two_sources`, this fails when the calls overlap at the
asynchronous decode.) -/
theorem play_twice_sequential_single_source (decode : String → List Nat) (a b : String)
    (p : PlaybackState) (hwf : PlaybackWF p)
    (ha : a ≠ "") (ha2 : (decode a).length ≠ 0)
    (hb : b ≠ "") (hb2 : (decode b).length ≠ 0) :
    PlaybackWF (playAudio decode b (playAudio decode a p)) ∧
    (playAudio decode b (playAudio decode a p)).playing = [p.nextId + 1] ∧
    (playAudio decode b (playAudio decode a p)).current = some (p.nextId + 1) ∧
    (playAudio decode b (playAudio decode a p)).playing.length = 1 := by
  obtain ⟨ctx, cur, pl, nid⟩ := p
  cases cur with
  | none =>
      have hpl : pl = [] := hwf
      subst hpl
      simp [playAudio, playPhase1, playPhase2, stopAllAudio, ha, hb, ha2, hb2, PlaybackWF]
  | some c =>
      have hpl : pl = [c] := hwf
      subst hpl
      simp [playAudio, playPhase1, playPhase2, stopAllAudio, ha, hb, ha2, hb2, PlaybackWF,
        List.erase_cons_head]

/-- Witness for the amended C4: sequential plays from a state with source 7
in flight end with exactly the new source 9 playing. -/
theorem play_twice_sequential_single_source_witness :
    PlaybackWF { ctxCreated := true, current := some 7, playing := [7], nextId := 8 } ∧
    (playAudio decodeOneByte "B" (playAudio decodeOneByte "A"
        { ctxCreated := true, current := some 7, playing := [7], nextId := 8 })).playing
      = [9] ∧
    (playAudio decodeOneByte "B" (playAudio decodeOneByte "A"
        { ctxCreated := true, current := some 7, playing := [7], nextId := 8 })).current
      = some 9 := by
  have h := play_twice_sequential_single_source decodeOneByte "A" "B"
    { ctxCreated := true, current := some 7, playing := [7], nextId := 8 } rfl
    (by decide) (by decide) (by decide) (by decide)
  exact ⟨rfl, h.2.1, h.2.2.1⟩
